import Mathlib

/-!
Shallow embedding of the Gyoshu Python bridge
(`.opencode/bridge/gyoshu_bridge.py`): a JSON-RPC 2.0 request dispatcher
over NDJSON with a persistent execution context, marker extraction from
captured stdout, and a best-effort memory probe.

Python `exec`/`compile` semantics are abstracted as an oracle parameter
(`PyRun`); everything else is translated directly from the source.
-/

namespace GyoshuBridge

/-- JSON values, as produced by `json.loads`. Objects are association
lists (later duplicate keys win on lookup, matching dict construction). -/
inductive JVal where
  | null
  | bool (b : Bool)
  | num (q : ℚ)
  | str (s : String)
  | arr (elems : List JVal)
  | obj (entries : List (String × JVal))

/-- Python `dict.get(key)` on an object built from an entry list:
the last binding for a key wins, absent keys give `none`. -/
def jget (entries : List (String × JVal)) (key : String) : Option JVal :=
  entries.foldl (fun acc kv => if kv.1 = key then some kv.2 else acc) none

/-- Python truthiness of a JSON value (`bool(v)`). -/
def pyTruthy : JVal → Bool
  | .null => false
  | .bool b => b
  | .num q => q != 0
  | .str s => s != ""
  | .arr elems => !elems.isEmpty
  | .obj entries => !entries.isEmpty

/-- Truthiness of an optional value: `None` (absent key) is falsy. -/
def pyTruthyOpt : Option JVal → Bool
  | none => false
  | some v => pyTruthy v

/-- `isinstance(v, str)`. -/
def JVal.isStr : JVal → Bool
  | .str _ => true
  | _ => false

/-- `isinstance(v, dict)`. -/
def JVal.isObj : JVal → Bool
  | .obj _ => true
  | _ => false

/-! ## Marker parsing

`MARKER_REGEX = re.compile(r"^\s*\[([A-Z][A-Z0-9_]*)(?::([^\]]+))?\]\s*(.*)$", re.MULTILINE)`

The pattern is deterministic enough that greedy matching never needs
backtracking, so it is modelled by maximal-munch scanning:
`^` (MULTILINE) anchors at the start of the text and right after each
newline; `\s*` takes a maximal whitespace run (including newlines);
the bracketed tag is `[TYPE]` or `[TYPE:SUBTYPE]` with `TYPE` in
`[A-Z][A-Z0-9_]*` and `SUBTYPE` a nonempty run of non-bracket
characters; then `\s*` again and `(.*)$` takes the rest of the line.
`finditer` yields leftmost non-overlapping matches. -/

/-- Python `\s` on ASCII text: space, tab, newline, carriage return,
vertical tab, form feed. -/
def isPySpace (c : Char) : Bool :=
  c == ' ' || c == '\t' || c == '\n' || c == '\r' || c == '\x0b' || c == '\x0c'

/-- The character class `[A-Z]`. -/
def isMarkerUpper (c : Char) : Bool := 'A' ≤ c && c ≤ 'Z'

/-- The character class `[A-Z0-9_]`. -/
def isMarkerTypeChar (c : Char) : Bool :=
  isMarkerUpper c || ('0' ≤ c && c ≤ '9') || c == '_'

/-- Match `\[([A-Z][A-Z0-9_]*)(?::([^\]]+))?\]` at the head of `cs`:
returns the type group, the optional subtype group, and the number of
characters consumed. The optional group commits iff a `:` follows the
type and a nonempty subtype is closed by `]`. -/
def matchBracket (cs : List Char) : Option (String × Option String × ℕ) :=
  match cs with
  | '[' :: cs2 =>
    match cs2 with
    | c0 :: cs3 =>
      if isMarkerUpper c0 then
        let tyRest := cs3.takeWhile isMarkerTypeChar
        let ty := String.mk (c0 :: tyRest)
        match cs3.drop tyRest.length with
        | ':' :: cs5 =>
          let sub := cs5.takeWhile (fun c => !(c == ']'))
          if sub.isEmpty then none
          else
            match cs5.drop sub.length with
            | ']' :: _ => some (ty, some (String.mk sub), 1 + (1 + tyRest.length) + 1 + sub.length + 1)
            | _ => none
        | ']' :: _ => some (ty, none, 1 + (1 + tyRest.length) + 1)
        | _ => none
      else none
    | [] => none
  | _ => none

/-- Match the trailing `\s*(.*)$` of the marker pattern: a maximal
whitespace run (which may cross newlines), then everything up to the
next newline or the end of the text. Returns the content group and the
number of characters consumed. -/
def tagTail (cs : List Char) : String × ℕ :=
  let ws2 := cs.takeWhile isPySpace
  let rest := cs.drop ws2.length
  let content := rest.takeWhile (fun c => !(c == '\n'))
  (String.mk content, ws2.length + content.length)

/-- One full-pattern match attempt anchored at the head of `cs`. -/
structure TagMatch where
  type : String
  subtype : Option String
  rawContent : String
  matchLen : ℕ

/-- Attempt the whole pattern `\s*\[TYPE(:SUBTYPE)?\]\s*(.*)$` at the
head of `cs` (the caller checks the `^` anchor). -/
def matchTag (cs : List Char) : Option TagMatch :=
  let ws := cs.takeWhile isPySpace
  match matchBracket (cs.drop ws.length) with
  | none => none
  | some (ty, sub, blen) =>
    let (content, tlen) := tagTail (cs.drop (ws.length + blen))
    some ⟨ty, sub, content, ws.length + blen + tlen⟩

/-- A raw regex match: start offset in the scanned text plus groups. -/
structure RawMatch where
  start : ℕ
  type : String
  subtype : Option String
  rawContent : String
deriving DecidableEq

/-- `MARKER_REGEX.finditer`: scan left to right; a match may start only
where `^` holds (offset 0 or right after a newline); after a match of
length L the scan resumes at its end (non-overlapping), modelled by
skipping the remaining L-1 characters. Matches always consume at least
the two bracket characters, so the skip count is exact. -/
def scanAux (cs : List Char) (atStart : Bool) (pos skip : ℕ) : List RawMatch :=
  match cs with
  | [] => []
  | c :: rest =>
    match skip with
    | k + 1 => scanAux rest (c == '\n') (pos + 1) k
    | 0 =>
      if atStart then
        match matchTag (c :: rest) with
        | some m =>
          { start := pos, type := m.type, subtype := m.subtype, rawContent := m.rawContent }
            :: scanAux rest (c == '\n') (pos + 1) (m.matchLen - 1)
        | none => scanAux rest (c == '\n') (pos + 1) 0
      else scanAux rest (c == '\n') (pos + 1) 0

/-- The `MARKER_CATEGORIES` table. -/
def MARKER_CATEGORIES : List (String × String) :=
  [("OBJECTIVE", "research_process"), ("HYPOTHESIS", "research_process"),
   ("EXPERIMENT", "research_process"), ("OBSERVATION", "research_process"),
   ("ANALYSIS", "research_process"), ("CONCLUSION", "research_process"),
   ("DATA", "data_operations"), ("SHAPE", "data_operations"),
   ("DTYPE", "data_operations"), ("RANGE", "data_operations"),
   ("MISSING", "data_operations"), ("MEMORY", "data_operations"),
   ("CALC", "calculations"), ("METRIC", "calculations"),
   ("STAT", "calculations"), ("CORR", "calculations"),
   ("PLOT", "artifacts"), ("ARTIFACT", "artifacts"),
   ("TABLE", "artifacts"), ("FIGURE", "artifacts"),
   ("FINDING", "insights"), ("INSIGHT", "insights"),
   ("PATTERN", "insights"),
   ("STEP", "workflow"), ("CHECK", "workflow"), ("INFO", "workflow"),
   ("WARNING", "workflow"), ("ERROR", "workflow"), ("DEBUG", "workflow"),
   ("CITATION", "scientific"), ("LIMITATION", "scientific"),
   ("NEXT_STEP", "scientific"), ("DECISION", "scientific")]

/-- Python `str.strip()`: remove leading and trailing whitespace. -/
def pyStrip (s : String) : String :=
  String.mk (((s.data.dropWhile isPySpace).reverse.dropWhile isPySpace).reverse)

/-- A marker dict as built by `parse_markers`. -/
structure Marker where
  type : String
  subtype : Option String
  content : String
  line_number : ℕ
  category : String
deriving DecidableEq

/-- Build one marker from a raw match, as in the loop body of
`parse_markers`: content is the stripped third group, `line_number` is
`text[: match.start()].count("\n") + 1`, and the category comes from
`MARKER_CATEGORIES.get(marker_type, "unknown")`. -/
def mkMarker (text : List Char) (r : RawMatch) : Marker :=
  { type := r.type
    subtype := r.subtype
    content := pyStrip r.rawContent
    line_number := (text.take r.start).count '\n' + 1
    category := ((MARKER_CATEGORIES.lookup r.type).getD "unknown") }

/-- `parse_markers(text)`. -/
def parse_markers (text : String) : List Marker :=
  (scanAux text.data true 0 0).map (mkMarker text.data)

/-! ## Memory utilities -/

/-- Python `round(x, 2)` uses round-half-to-even on the scaled value. -/
def pyRoundHalfEven (x : ℚ) : ℤ :=
  let f := Int.floor x
  if x - f < 1 / 2 then f
  else if 1 / 2 < x - f then f + 1
  else if f % 2 = 0 then f else f + 1

/-- `round(x, 2)`. -/
def round2 (x : ℚ) : ℚ := (pyRoundHalfEven (x * 100) : ℚ) / 100

/-- Memory reading in MB: `{"rss_mb": ..., "vms_mb": ...}`. -/
structure MemUsage where
  rss_mb : ℚ
  vms_mb : ℚ
deriving DecidableEq

/-- The environment `get_memory_usage` runs in: either `psutil` imports
and reports byte counts, or the `/proc/<pid>/status` fallback parses
kB counts for `VmRSS:`/`VmSize:` (0 when a line is absent), or the
fallback raises somewhere (open, read, or `int()` failure). `psutil`
and `/proc` report nonnegative integers. -/
inductive ProbeEnv where
  | psutilOk (rssBytes vmsBytes : ℕ)
  | procOk (vmRssKb vmSizeKb : ℕ)
  | procFail

/-- `get_memory_usage()`: best effort, `{0.0, 0.0}` when the fallback
raises; never propagates an error (the whole fallback body is inside
`except Exception`). -/
def get_memory_usage : ProbeEnv → MemUsage
  | .psutilOk rssBytes vmsBytes =>
    { rss_mb := round2 ((rssBytes : ℚ) / (1024 * 1024))
      vms_mb := round2 ((vmsBytes : ℚ) / (1024 * 1024)) }
  | .procOk vmRssKb vmSizeKb =>
    { rss_mb := round2 ((vmRssKb : ℚ) / 1024)
      vms_mb := round2 ((vmSizeKb : ℚ) / 1024) }
  | .procFail => { rss_mb := 0, vms_mb := 0 }

/-! ## Execution state -/

/-- Values held in the execution namespace. Arbitrary Python objects
produced by user code are out of scope of the claims; a few concrete
shapes suffice to populate the association list. -/
inductive PyVal where
  | str (s : String)
  | int (n : ℤ)
  | builtinFn (name : String)
  | objRef (tag : ℕ)
deriving DecidableEq

/-- The namespace dict: identifier to value. -/
abbrev NS := List (String × PyVal)

/-- `ExecutionState`: the persistent namespace plus the interrupt flag
(the `threading.Event`, level-triggered). The execution lock only
serializes access and has no sequential observable effect. -/
structure ExecutionState where
  _namespace : NS
  _interrupt_flag : Bool
deriving DecidableEq

/-- `_initialize_namespace`: the fixed built-in bindings. -/
def _initialize_namespace : NS :=
  [("__name__", .str "__gyoshu__"),
   ("__doc__", .str "Gyoshu execution namespace"),
   ("clean_memory", .builtinFn "clean_memory"),
   ("get_memory", .builtinFn "get_memory")]

/-- `ExecutionState.reset()`: clear the namespace, re-seed the built-in
bindings, clear the interrupt flag, run gc, return status and memory. -/
def ExecutionState.reset (env : ProbeEnv) (_st : ExecutionState) :
    (String × MemUsage) × ExecutionState :=
  (("reset", get_memory_usage env),
   { _namespace := _initialize_namespace, _interrupt_flag := false })

/-- `get_state` result: `{memory, variables, variable_count}`.
(The response key `variables` is a reserved word in Lean, hence the
field name `vars`.) -/
structure StateResult where
  memory : MemUsage
  vars : List String
  variable_count : ℕ
deriving DecidableEq

/-- Python `k.startswith(pre)`. -/
def pyStartsWith (k pre : String) : Bool := pre.data.isPrefixOf k.data

/-- `ExecutionState.get_state()`: user variables are the namespace keys
not starting with `_` and distinct from the helper names. -/
def ExecutionState.get_state (env : ProbeEnv) (st : ExecutionState) : StateResult :=
  let user_vars := (st._namespace.map Prod.fst).filter
    (fun k => !(pyStartsWith k "_") && !(k == "clean_memory" || k == "get_memory"))
  { memory := get_memory_usage env
    vars := user_vars
    variable_count := user_vars.length }

/-- `ExecutionState.interrupt()`: set the interrupt flag, acknowledge. -/
def ExecutionState.interrupt (st : ExecutionState) : String × ExecutionState :=
  ("interrupt_requested", { st with _interrupt_flag := true })

/-! ## Code execution -/

/-- How one `compile` + `exec` run of a piece of code terminates: which
`except` branch of `execute_code` (if any) catches the outcome. -/
inductive ExecBehavior where
  | ok
  | raisesTimeout (msg : String)
  | raisesKeyboardInterrupt
  | raisesSyntaxError (msg frames : String)
  | raisesOther (excType msg frames : String)
deriving DecidableEq

/-- Oracle for the embedded interpreter: given the code, the namespace,
the timeout in force, and the interrupt-flag state at the moment
execution begins, it yields the termination behavior, the namespace
after the (possibly partial) run, and the captured stdout/stderr. -/
def PyRun := String → NS → Option ℚ → Bool → ExecBehavior × NS × String × String

/-- Modelled from the Python stdlib: `traceback.format_exception` joins
to a string that opens with the traceback header, the formatted frames,
then `type: message`. -/
def format_exception (excType msg frames : String) : String :=
  "Traceback (most recent call last):\n" ++ frames ++ excType ++ ": " ++ msg ++ "\n"

/-- The dict returned by `execute_code`. -/
structure PyResult where
  success : Bool
  stdout : String
  stderr : String
  exception : Option String
  exception_type : Option String
  traceback : Option String
deriving DecidableEq

/-- `execute_code(code, namespace, timeout, interrupt_flag)`: run the
code, capture output, and classify the outcome by `except` branch.
The finally-block bookkeeping (alarm disarm, stream restore) has no
observable effect on the returned dict beyond filling stdout/stderr. -/
def execute_code (run : PyRun) (code : String) (ns : NS) (timeout : Option ℚ)
    (interrupt_flag : Bool) : PyResult × NS :=
  let (behavior, ns2, out, err) := run code ns timeout interrupt_flag
  let base : PyResult :=
    { success := false, stdout := out, stderr := err,
      exception := none, exception_type := none, traceback := none }
  match behavior with
  | .ok => ({ base with success := true }, ns2)
  | .raisesTimeout msg =>
    ({ base with exception := some msg, exception_type := some "TimeoutError",
                 traceback := some "Execution timed out" }, ns2)
  | .raisesKeyboardInterrupt =>
    ({ base with exception := some "Execution interrupted",
                 exception_type := some "KeyboardInterrupt",
                 traceback := some "Interrupted by user" }, ns2)
  | .raisesSyntaxError msg frames =>
    ({ base with exception := some msg, exception_type := some "SyntaxError",
                 traceback := some (format_exception "SyntaxError" msg frames) }, ns2)
  | .raisesOther excType msg frames =>
    ({ base with exception := some msg, exception_type := some excType,
                 traceback := some (format_exception excType msg frames) }, ns2)

/-! ## JSON-RPC protocol -/

def JSON_RPC_VERSION : String := "2.0"

/-- A JSON-RPC error object, as built by `make_error`. -/
structure RpcError where
  code : ℤ
  message : String
  data : Option String
deriving DecidableEq

/-- `make_error(code, message, data=None)`. -/
def make_error (code : ℤ) (message : String) (data : Option String) : RpcError :=
  { code := code, message := message, data := data }

/-- Timing block of an execute response. -/
structure Timing where
  started_at : String
  duration_ms : ℚ
deriving DecidableEq

/-- The `error` sub-object of a failed execute response. -/
structure ExecuteErrorInfo where
  type : Option String
  message : Option String
  traceback : Option String
deriving DecidableEq

/-- The result dict of a successful `execute` RPC. -/
structure ExecuteResult where
  success : Bool
  stdout : String
  stderr : String
  markers : List Marker
  artifacts : List ℕ
  timing : Timing
  memory : MemUsage
  error : Option ExecuteErrorInfo
deriving DecidableEq

/-- `ping` result. -/
structure PingResult where
  status : String
  timestamp : String
deriving DecidableEq

/-- The possible values of a response's `result` member. `null` stands
for Python `None` serialized as JSON null. -/
inductive ResultVal where
  | null
  | executeRes (r : ExecuteResult)
  | resetRes (status : String) (memory : MemUsage)
  | stateRes (r : StateResult)
  | interruptRes (status : String)
  | pingRes (r : PingResult)
deriving DecidableEq

/-- One emitted JSON-RPC response object. `id = none` means the `id`
member is omitted from the serialized object; `result`/`error` likewise
model member presence. -/
structure Response where
  jsonrpc : String
  id : Option JVal
  result : Option ResultVal
  error : Option RpcError

/-- `send_response(id, result=None, error=None)`: always sets `jsonrpc`;
includes `id` only when one was recovered; sets the `error` member when
an error is given, otherwise the `result` member (null when absent).
Every protocol message of the bridge is emitted through this function. -/
def send_response (id : Option JVal) (result : Option ResultVal)
    (error : Option RpcError) : Response :=
  { jsonrpc := JSON_RPC_VERSION
    id := id
    result := if error.isSome then none else some (result.getD ResultVal.null)
    error := error }

/-! ## Request handlers -/

/-- `handle_execute(id, params)`. The wall clock (`started_at`,
`duration_ms`) and the memory probe environment are passed as explicit
inputs. Returns the emitted response and the execution state after the
call (the global `_state`). -/
def handle_execute (run : PyRun) (env : ProbeEnv) (started_at : String)
    (duration_ms : ℚ) (id : JVal) (params : List (String × JVal))
    (st : ExecutionState) : Response × ExecutionState :=
  let code := jget params "code"
  if !(pyTruthyOpt code) then
    (send_response (some id) none
      (some (make_error (-32602) "Missing required parameter: code" none)), st)
  else
    match code with
    | some (JVal.str codeStr) =>
      -- params.get("timeout", 300); non-numeric or nonpositive values fall
      -- back to 300; Python booleans are ints (True counts as 1).
      let timeout : ℚ :=
        match jget params "timeout" with
        | none => 300
        | some (JVal.num q) => if 0 < q then q else 300
        | some (JVal.bool b) => if b then 1 else 300
        | some _ => 300
      -- _state.interrupt_flag.clear()
      let st1 : ExecutionState := { st with _interrupt_flag := false }
      let execPair :=
        execute_code run codeStr st1._namespace (some timeout) st1._interrupt_flag
      let exec_result := execPair.1
      let markers := parse_markers exec_result.stdout
      let response : ExecuteResult :=
        { success := exec_result.success
          stdout := exec_result.stdout
          stderr := exec_result.stderr
          markers := markers
          artifacts := []
          timing := { started_at := started_at, duration_ms := duration_ms }
          memory := get_memory_usage env
          error :=
            if exec_result.success then none
            else some { type := exec_result.exception_type
                        message := exec_result.exception
                        traceback := exec_result.traceback } }
      (send_response (some id) (some (.executeRes response)) none,
       { st1 with _namespace := execPair.2 })
    | _ =>
      (send_response (some id) none
        (some (make_error (-32602) "Parameter 'code' must be a string" none)), st)

/-- `handle_interrupt(id, params)`. -/
def handle_interrupt (id : JVal) (st : ExecutionState) : Response × ExecutionState :=
  let (status, st2) := st.interrupt
  (send_response (some id) (some (.interruptRes status)) none, st2)

/-- `handle_reset(id, params)`. -/
def handle_reset (env : ProbeEnv) (id : JVal) (st : ExecutionState) :
    Response × ExecutionState :=
  let (r, st2) := st.reset env
  (send_response (some id) (some (.resetRes r.1 r.2)) none, st2)

/-- `handle_get_state(id, params)`. -/
def handle_get_state (env : ProbeEnv) (id : JVal) (st : ExecutionState) :
    Response × ExecutionState :=
  (send_response (some id) (some (.stateRes (st.get_state env))) none, st)

/-- `handle_ping(id, params)`. -/
def handle_ping (now : String) (id : JVal) : Response :=
  send_response (some id) (some (.pingRes { status := "ok", timestamp := now })) none

/-- The keys of the `HANDLERS` registry. -/
def HANDLERS : List String := ["execute", "interrupt", "reset", "get_state", "ping"]

/-- The version check `request.get("jsonrpc") != JSON_RPC_VERSION`
(negated): a JSON value equals the version string iff it is that
string. -/
def isVersion (v : Option JVal) : Bool :=
  match v with
  | some (JVal.str s) => s == JSON_RPC_VERSION
  | _ => false

/-- Where `process_request` ends up: either it already emitted a
validation-error response itself, or it hands `(id, params)` to the
handler registered for `method`. -/
inductive Dispatched where
  | replied (r : Response)
  | toHandler (method : String) (id : Option JVal) (params : List (String × JVal))

/-- `request_id = request.get("id")`, as later consumed by
`send_response`: `json.loads` decodes JSON null to Python `None`, and
`dict.get` also returns `None` for an absent key, so an explicit
`"id": null` is indistinguishable from a missing id — in both cases
`send_response`'s `if id is not None` check omits the `id` member. -/
def recovered_id (entries : List (String × JVal)) : Option JVal :=
  match jget entries "id" with
  | some JVal.null => none
  | some v => some v
  | none => none

/-- The id attached to the dispatcher's outcome: the reply's id member,
or the id handed to the handler. -/
def dispatchedId : Dispatched → Option JVal
  | .replied r => r.id
  | .toHandler _ i _ => i

/-- `process_request(line)`, up to handler invocation. The input is the
result of `json.loads(line)` (`Except.error e` when the line is not
valid JSON, carrying the decoder's message). Validation steps in source
order: JSON parse, object check, id recovery, version check, method
check, params check, registry lookup. -/
def process_request (parsed : Except String JVal) : Dispatched :=
  match parsed with
  | .error e =>
    .replied (send_response none none
      (some (make_error (-32700) ("Parse error: " ++ e) none)))
  | .ok req =>
    match req with
    | JVal.obj entries =>
      let request_id := recovered_id entries
      if isVersion (jget entries "jsonrpc") then
        match jget entries "method" with
        | some (JVal.str m) =>
          -- `not method` also rejects the empty string
          if m == "" then
            .replied (send_response request_id none
              (some (make_error (-32600) "Missing or invalid \x27method\x27" none)))
          else
            match (jget entries "params").getD (JVal.obj []) with
            | JVal.obj ps =>
              if HANDLERS.contains m then .toHandler m request_id ps
              else
                .replied (send_response request_id none
                  (some (make_error (-32601) ("Method not found: " ++ m) none)))
            | _ =>
              .replied (send_response request_id none
                (some (make_error (-32602)
                  "Parameter \x27params\x27 must be an object" none)))
        | _ =>
          .replied (send_response request_id none
            (some (make_error (-32600) "Missing or invalid \x27method\x27" none)))
      else
        .replied (send_response request_id none
          (some (make_error (-32600)
            "Invalid jsonrpc version, expected \x272.0\x27" none)))
    | _ =>
      .replied (send_response none none
        (some (make_error (-32600) "Request must be a JSON object" none)))

/-- Recognizer for strings produced by the traceback formatter: they
open with the fixed traceback header. -/
def isFormattedTraceback (s : String) : Bool :=
  "Traceback (most recent call last):\n".data.isPrefixOf s.data

/-! ## Helper lemmas -/

lemma pyRoundHalfEven_nonneg {x : ℚ} (hx : 0 ≤ x) : 0 ≤ pyRoundHalfEven x := by
  have hf : (0 : ℤ) ≤ Int.floor x := Int.floor_nonneg.mpr hx
  unfold pyRoundHalfEven
  dsimp only
  split_ifs <;> omega

lemma round2_nonneg {x : ℚ} (hx : 0 ≤ x) : 0 ≤ round2 x := by
  unfold round2
  apply div_nonneg _ (by norm_num)
  exact_mod_cast pyRoundHalfEven_nonneg (by positivity)

lemma format_exception_formatted (excType msg frames : String) :
    isFormattedTraceback (format_exception excType msg frames) = true := by
  unfold isFormattedTraceback format_exception
  rw [List.isPrefixOf_iff_prefix]
  refine ⟨(frames ++ excType ++ ": " ++ msg ++ "\n").data, ?_⟩
  simp [String.data_append, List.append_assoc]

/-- The two branches of the body of `send_response` populate exactly
one of the `result`/`error` members. -/
lemma send_response_exclusive (id : Option JVal) (result : Option ResultVal)
    (error : Option RpcError) :
    ((send_response id result error).error.isSome = true ∧
      (send_response id result error).result = none) ∨
    ((send_response id result error).error = none ∧
      (send_response id result error).result.isSome = true) := by
  cases error <;> simp [send_response]

/-- Whatever `process_request` replies with directly satisfies the
result/error exclusivity invariant. -/
def repliedExclusive : Dispatched → Prop
  | .replied r => (r.error.isSome = true ∧ r.result = none) ∨
      (r.error = none ∧ r.result.isSome = true)
  | .toHandler _ _ _ => True

/-! ## Claims -/

/-- C6: The resource probe never raises: on any failure to obtain real
memory values (missing OS facility, permission error, parse failure) it
returns readings of 0.0 for both resident and virtual size rather than
propagating an error, and on every call both returned readings are
≥ 0. (Totality of `get_memory_usage` over every probe environment is
the never-raises part; `procFail` is any raising fallback path.) -/
theorem C6_memory_probe_never_raises :
    (∀ env : ProbeEnv, 0 ≤ (get_memory_usage env).rss_mb ∧
      0 ≤ (get_memory_usage env).vms_mb)
    ∧ get_memory_usage ProbeEnv.procFail = { rss_mb := 0, vms_mb := 0 } := by
  constructor
  · intro env
    cases env with
    | psutilOk a b =>
      exact ⟨round2_nonneg (by positivity), round2_nonneg (by positivity)⟩
    | procOk a b =>
      exact ⟨round2_nonneg (by positivity), round2_nonneg (by positivity)⟩
    | procFail => exact ⟨le_refl 0, le_refl 0⟩
  · rfl

/-- C3: For every code string and namespace (and any interpreter
behavior), the result of `execute_code` satisfies exactly one of:
`success` is true and the exception, exception-kind and traceback
fields are all empty, or `success` is false and those fields are all
populated. -/
theorem C3_result_field_exclusivity :
    ∀ (run : PyRun) (code : String) (ns : NS) (timeout : Option ℚ) (flag : Bool),
    ((execute_code run code ns timeout flag).1.success = true ↔
      ((execute_code run code ns timeout flag).1.exception = none ∧
       (execute_code run code ns timeout flag).1.exception_type = none ∧
       (execute_code run code ns timeout flag).1.traceback = none))
    ∧ ((execute_code run code ns timeout flag).1.success = false ↔
      ((execute_code run code ns timeout flag).1.exception.isSome = true ∧
       (execute_code run code ns timeout flag).1.exception_type.isSome = true ∧
       (execute_code run code ns timeout flag).1.traceback.isSome = true)) := by
  intro run code ns timeout flag
  rcases h : run code ns timeout flag with ⟨b, ns2, out, err⟩
  cases b <;> simp [execute_code, h]

/-- C4: For every prior state, `reset` replaces the namespace with
exactly the fixed built-in bindings (so no entry from before persists),
clears the interrupt flag, and returns the status token `"reset"` plus
a memory reading; `get_state` immediately after reports
`variable_count = 0`. -/
theorem C4_reset_total :
    ∀ (env env2 : ProbeEnv) (st : ExecutionState),
    (st.reset env).2._namespace = _initialize_namespace
    ∧ (st.reset env).2._interrupt_flag = false
    ∧ (st.reset env).1 = ("reset", get_memory_usage env)
    ∧ (ExecutionState.get_state env2 (st.reset env).2).variable_count = 0 := by
  intro env env2 st
  exact ⟨rfl, rfl, rfl, rfl⟩

/-- C9 counterexample: the request `{"jsonrpc":"1.0","id":null}`
parses fully as an object and carries an explicit id field, yet the
reply omits the `id` member entirely: `request.get("id")` returns
Python `None` for a JSON null id — the same as for a missing key — and
`send_response`'s `if id is not None` then drops the member. So the
response does not echo this request's id (`null` ≠ omitted in
JSON-RPC), and an omitted id does not mark "failure before an id could
be recovered": this fully-identified failing request gets the same
id-less reply shape as an unparseable line. -/
theorem C9_counterexample :
    process_request (Except.ok (JVal.obj [("jsonrpc", JVal.str "1.0"), ("id", JVal.null)])) =
      .replied (send_response none none
        (some (make_error (-32600) "Invalid jsonrpc version, expected \x272.0\x27" none)))
    ∧ jget [("jsonrpc", JVal.str "1.0"), ("id", JVal.null)] "id" = some JVal.null
    ∧ (send_response none none
        (some (make_error (-32600) "Invalid jsonrpc version, expected \x272.0\x27" none))).id = none :=
  ⟨rfl, rfl, rfl⟩

/-- C9 (amended): every response the system emits (all go through
`send_response`) contains exactly one of the `result` and `error`
members — never both, never neither — and its `id` member is exactly
the id value handed to `send_response`; every direct reply of
`process_request` satisfies the exclusivity invariant; the id attached
to any dispatcher outcome is `none` for inputs that fail before an
object is parsed, and for parsed objects it is the recovered id, which
is the request's id field exactly when that field is present and
non-null — an absent or explicit-null id field is conflated to `none`,
so the `id` member is omitted in both of those cases as well. -/
theorem C9_response_shape_amended :
    (∀ (id : Option JVal) (result : Option ResultVal) (error : Option RpcError),
      (((send_response id result error).error.isSome = true ∧
          (send_response id result error).result = none) ∨
        ((send_response id result error).error = none ∧
          (send_response id result error).result.isSome = true))
      ∧ (send_response id result error).id = id)
    ∧ (∀ parsed : Except String JVal, repliedExclusive (process_request parsed))
    ∧ (∀ e, dispatchedId (process_request (Except.error e)) = none)
    ∧ (∀ v : JVal, v.isObj = false →
        dispatchedId (process_request (Except.ok v)) = none)
    ∧ (∀ entries, dispatchedId (process_request (Except.ok (JVal.obj entries)))
        = recovered_id entries)
    ∧ (∀ entries v, recovered_id entries = some v →
        jget entries "id" = some v ∧ v ≠ JVal.null)
    ∧ (∀ entries, jget entries "id" = some JVal.null → recovered_id entries = none)
    ∧ (∀ entries, jget entries "id" = none → recovered_id entries = none) := by
  refine ⟨?_, ?_, ?_, ?_, ?_, ?_, ?_, ?_⟩
  · intro id result error
    exact ⟨send_response_exclusive id result error, rfl⟩
  · have key : ∀ (i : Option JVal) (res : Option ResultVal) (err : Option RpcError),
        repliedExclusive (.replied (send_response i res err)) := by
      intro i res err
      exact send_response_exclusive i res err
    intro parsed
    rcases parsed with e | req
    · exact key _ _ _
    · rcases req with _ | b | q | s | elems | entries
      · exact key _ _ _
      · exact key _ _ _
      · exact key _ _ _
      · exact key _ _ _
      · exact key _ _ _
      · unfold process_request
        dsimp only
        split
        · split
          · split
            · exact key _ _ _
            · split
              · split
                · trivial
                · exact key _ _ _
              · exact key _ _ _
          · exact key _ _ _
        · exact key _ _ _
  · intro e
    rfl
  · intro v hv
    cases v <;> first | rfl | simp_all [JVal.isObj]
  · intro entries
    unfold process_request
    dsimp only
    split
    · split
      · split
        · rfl
        · split
          · split
            · rfl
            · rfl
          · rfl
      · rfl
    · rfl
  · intro entries v h
    revert h
    unfold recovered_id
    cases hj : jget entries "id" with
    | none => intro h; cases h
    | some w =>
      cases w with
      | null => intro h; cases h
      | bool b => intro h; injection h with h2; subst h2; exact ⟨rfl, by simp⟩
      | num q => intro h; injection h with h2; subst h2; exact ⟨rfl, by simp⟩
      | str s => intro h; injection h with h2; subst h2; exact ⟨rfl, by simp⟩
      | arr elems => intro h; injection h with h2; subst h2; exact ⟨rfl, by simp⟩
      | obj o => intro h; injection h with h2; subst h2; exact ⟨rfl, by simp⟩
  · intro entries h
    simp [recovered_id, h]
  · intro entries h
    simp [recovered_id, h]

/-- C9 witness: a concrete non-object input gets an id-less outcome, a
present non-null id is recovered and echoed, and both an explicit-null
and an absent id field yield an omitted id member. -/
theorem C9_response_shape_amended_witness :
    dispatchedId (process_request (Except.ok (JVal.str "hi"))) = none
    ∧ (jget [("id", JVal.str "7")] "id" = some (JVal.str "7")
        ∧ JVal.str "7" ≠ JVal.null)
    ∧ recovered_id [("id", JVal.null)] = none
    ∧ recovered_id [] = none :=
  ⟨C9_response_shape_amended.2.2.2.1 (JVal.str "hi") rfl,
   C9_response_shape_amended.2.2.2.2.2.1 [("id", JVal.str "7")] (JVal.str "7") rfl,
   C9_response_shape_amended.2.2.2.2.2.2.1 [("id", JVal.null)] rfl,
   C9_response_shape_amended.2.2.2.2.2.2.2 [] rfl⟩

/-- C7: For the input text `[METRIC:accuracy] 0.95`, marker extraction
returns exactly one marker with type `METRIC`, subtype `accuracy`,
content `0.95`, line_number 1 and category `calculations`; in general a
marker's category is looked up in the fixed table, unrecognized types
being retained with category `unknown`. -/
theorem C7_metric_marker :
    parse_markers "[METRIC:accuracy] 0.95" =
      [{ type := "METRIC", subtype := some "accuracy", content := "0.95",
         line_number := 1, category := "calculations" }]
    ∧ parse_markers "[ZZZ] hi" =
      [{ type := "ZZZ", subtype := none, content := "hi",
         line_number := 1, category := "unknown" }]
    ∧ (∀ (text : String) (m : Marker), m ∈ parse_markers text →
        m.category = (MARKER_CATEGORIES.lookup m.type).getD "unknown") := by
  refine ⟨by decide, by decide, ?_⟩
  intro text m hm
  obtain ⟨r, hr, rfl⟩ := List.mem_map.mp hm
  rfl

/-- C7 witness: the claim's scenario marker takes its category from the
fixed table. -/
theorem C7_metric_marker_witness :
    (({ type := "METRIC", subtype := some "accuracy", content := "0.95",
        line_number := 1, category := "calculations" } : Marker)).category =
      (MARKER_CATEGORIES.lookup "METRIC").getD "unknown" :=
  C7_metric_marker.2.2 "[METRIC:accuracy] 0.95" _ (by decide)

/-- C8 counterexample: in `"hello\n\n[STEP] go"` the bracket sits at
offset 7, with two newlines strictly before it, i.e. on literal line 3
(after an embedded blank line). The regex match, however, starts at
offset 6: `^` anchors right after the first newline and the leading
`\s*` of the pattern consumes the blank line's newline. The marker
therefore reports `line_number = 2`, not the literal line 3 the
bracketed tag occupies — refuting the claim's "matches the literal
line the bracketed tag occupies (including after embedded blank
lines)". -/
theorem C8_counterexample :
    parse_markers "hello\n\n[STEP] go" =
      [{ type := "STEP", subtype := none, content := "go",
         line_number := 2, category := "workflow" }]
    ∧ ("hello\n\n[STEP] go".data.take 7).count '\n' + 1 = 3 := by
  exact ⟨by decide, by decide⟩

/-- C8 (amended): every extracted marker's `line_number` equals one
plus the number of newline characters strictly before the match start,
so it is 1-indexed and a marker whose match starts on the first line
reports line 1; when the match's leading whitespace spans embedded
blank lines, the match start — and hence the reported line — can
precede the literal line the bracketed tag occupies. -/
theorem C8_line_number_amended :
    ∀ (text : String) (r : RawMatch), r ∈ scanAux text.data true 0 0 →
    mkMarker text.data r ∈ parse_markers text
    ∧ (mkMarker text.data r).line_number = (text.data.take r.start).count '\n' + 1
    ∧ 1 ≤ (mkMarker text.data r).line_number
    ∧ ((text.data.take r.start).count '\n' = 0 →
        (mkMarker text.data r).line_number = 1) := by
  intro text r hr
  refine ⟨List.mem_map_of_mem _ hr, rfl, ?_, ?_⟩
  · simp [mkMarker]
  · intro h
    simp [mkMarker, h]

/-- C8 witness: the marker of `"[STEP] go"` starts at offset 0 on the
first line and reports line 1. -/
theorem C8_line_number_amended_witness :
    mkMarker "[STEP] go".data { start := 0, type := "STEP", subtype := none, rawContent := "go" }
        ∈ parse_markers "[STEP] go"
    ∧ (mkMarker "[STEP] go".data { start := 0, type := "STEP", subtype := none, rawContent := "go" }).line_number
        = ("[STEP] go".data.take 0).count '\n' + 1
    ∧ 1 ≤ (mkMarker "[STEP] go".data { start := 0, type := "STEP", subtype := none, rawContent := "go" }).line_number
    ∧ (("[STEP] go".data.take 0).count '\n' = 0 →
        (mkMarker "[STEP] go".data { start := 0, type := "STEP", subtype := none, rawContent := "go" }).line_number = 1) :=
  C8_line_number_amended "[STEP] go"
    { start := 0, type := "STEP", subtype := none, rawContent := "go" } (by decide)

/-- A concrete interpreter behavior: the run is cancelled by a
`KeyboardInterrupt` (the bridge's cancellation signal). -/
def interruptedRun : PyRun := fun _ ns _ _ => (.raisesKeyboardInterrupt, ns, "", "")

/-- A concrete interpreter behavior: the run completes normally. -/
def okRun : PyRun := fun _ ns _ _ => (.ok, ns, "", "")

/-- C5 counterexample: a run cancelled via the interrupt signal is a
failure that is not a timeout, yet its `traceback` field holds the
fixed literal `"Interrupted by user"`, which is not a formatted stack
trace (every string the traceback formatter produces opens with the
traceback header — `format_exception_formatted` — and this one does
not). This refutes "every failure other than timeout carrying a
formatted stack trace in the traceback field". -/
theorem C5_counterexample :
    (execute_code interruptedRun "while True: pass" [] (some 300) false).1.success = false
    ∧ (execute_code interruptedRun "while True: pass" [] (some 300) false).1.exception_type
        = some "KeyboardInterrupt"
    ∧ (execute_code interruptedRun "while True: pass" [] (some 300) false).1.traceback
        = some "Interrupted by user"
    ∧ isFormattedTraceback "Interrupted by user" = false := by
  exact ⟨rfl, rfl, rfl, by decide⟩

/-- C5 (amended): every run of `execute_code` is classified into
exactly one of success, cancellation via interrupt signal, timeout,
parse/syntax failure, or other runtime failure (one classification per
interpreter behavior); each failure carries a human-readable message;
syntax and other runtime failures carry a formatted stack trace, while
timeout and cancellation carry the fixed literal texts `"Execution
timed out"` and `"Interrupted by user"` in the traceback field. -/
theorem C5_outcome_classification :
    ∀ (run : PyRun) (code : String) (ns : NS) (t : Option ℚ) (flag : Bool)
      (b : ExecBehavior) (ns2 : NS) (out err : String),
    run code ns t flag = (b, ns2, out, err) →
    (b = .ok → (execute_code run code ns t flag).1.success = true)
    ∧ (∀ msg, b = .raisesTimeout msg →
        (execute_code run code ns t flag).1.success = false
        ∧ (execute_code run code ns t flag).1.exception = some msg
        ∧ (execute_code run code ns t flag).1.exception_type = some "TimeoutError"
        ∧ (execute_code run code ns t flag).1.traceback = some "Execution timed out")
    ∧ (b = .raisesKeyboardInterrupt →
        (execute_code run code ns t flag).1.success = false
        ∧ (execute_code run code ns t flag).1.exception = some "Execution interrupted"
        ∧ (execute_code run code ns t flag).1.exception_type = some "KeyboardInterrupt"
        ∧ (execute_code run code ns t flag).1.traceback = some "Interrupted by user")
    ∧ (∀ msg frames, b = .raisesSyntaxError msg frames →
        (execute_code run code ns t flag).1.success = false
        ∧ (execute_code run code ns t flag).1.exception = some msg
        ∧ (execute_code run code ns t flag).1.exception_type = some "SyntaxError"
        ∧ (execute_code run code ns t flag).1.traceback
            = some (format_exception "SyntaxError" msg frames)
        ∧ isFormattedTraceback (format_exception "SyntaxError" msg frames) = true)
    ∧ (∀ excType msg frames, b = .raisesOther excType msg frames →
        (execute_code run code ns t flag).1.success = false
        ∧ (execute_code run code ns t flag).1.exception = some msg
        ∧ (execute_code run code ns t flag).1.exception_type = some excType
        ∧ (execute_code run code ns t flag).1.traceback
            = some (format_exception excType msg frames)
        ∧ isFormattedTraceback (format_exception excType msg frames) = true) := by
  intro run code ns t flag b ns2 out err h
  refine ⟨?_, ?_, ?_, ?_, ?_⟩
  · rintro rfl; simp [execute_code, h]
  · rintro msg rfl; simp [execute_code, h]
  · rintro rfl; simp [execute_code, h]
  · rintro msg frames rfl
    simp [execute_code, h, format_exception_formatted]
  · rintro excType msg frames rfl
    simp [execute_code, h, format_exception_formatted]

/-- C5 witness: a normally completing run is classified as success. -/
theorem C5_outcome_classification_witness :
    (execute_code okRun "x = 1" [] none false).1.success = true :=
  (C5_outcome_classification okRun "x = 1" [] none false .ok [] "" "" rfl).1 rfl

/-- C1: request validation applies its checks in source order with the
first failure winning: unparseable text yields -32700 with id omitted;
a parsed value that is not an object yields -32600 with id omitted; a
version field not equal to `"2.0"` yields -32600; a missing or
non-string method yields -32600; a present non-object `params` yields
-32602; an unregistered method yields -32601 with the method name in
the message. Each case assumes exactly the earlier checks passed, so
the conjunction captures the short-circuit order. -/
theorem C1_validation_order :
    (∀ e, process_request (Except.error e) =
      .replied (send_response none none
        (some (make_error (-32700) ("Parse error: " ++ e) none))))
    ∧ (∀ v : JVal, v.isObj = false → process_request (Except.ok v) =
      .replied (send_response none none
        (some (make_error (-32600) "Request must be a JSON object" none))))
    ∧ (∀ entries, isVersion (jget entries "jsonrpc") = false →
      process_request (Except.ok (JVal.obj entries)) =
      .replied (send_response (recovered_id entries) none
        (some (make_error (-32600) "Invalid jsonrpc version, expected \x272.0\x27" none))))
    ∧ (∀ entries, isVersion (jget entries "jsonrpc") = true →
      (∀ s, jget entries "method" ≠ some (JVal.str s)) →
      process_request (Except.ok (JVal.obj entries)) =
      .replied (send_response (recovered_id entries) none
        (some (make_error (-32600) "Missing or invalid \x27method\x27" none))))
    ∧ (∀ entries m p, isVersion (jget entries "jsonrpc") = true →
      jget entries "method" = some (JVal.str m) → m ≠ "" →
      jget entries "params" = some p → p.isObj = false →
      process_request (Except.ok (JVal.obj entries)) =
      .replied (send_response (recovered_id entries) none
        (some (make_error (-32602) "Parameter \x27params\x27 must be an object" none))))
    ∧ (∀ entries m ps, isVersion (jget entries "jsonrpc") = true →
      jget entries "method" = some (JVal.str m) → m ≠ "" →
      (jget entries "params").getD (JVal.obj []) = JVal.obj ps →
      HANDLERS.contains m = false →
      process_request (Except.ok (JVal.obj entries)) =
      .replied (send_response (recovered_id entries) none
        (some (make_error (-32601) ("Method not found: " ++ m) none)))) := by
  refine ⟨fun e => rfl, ?_, ?_, ?_, ?_, ?_⟩
  · intro v hv
    cases v <;> simp_all [process_request, JVal.isObj]
  · intro entries hv
    simp [process_request, hv]
  · intro entries hv hm
    cases hme : jget entries "method" with
    | none => simp [process_request, hv, hme]
    | some v =>
      cases v with
      | str s => exact absurd hme (hm s)
      | null => simp [process_request, hv, hme]
      | bool b => simp [process_request, hv, hme]
      | num q => simp [process_request, hv, hme]
      | arr elems => simp [process_request, hv, hme]
      | obj o => simp [process_request, hv, hme]
  · intro entries m p hv hme hm hp hpo
    cases p <;> simp_all [process_request, JVal.isObj]
  · intro entries m ps hv hme hm hp hreg
    have hmem : m ∉ HANDLERS := by simpa [HANDLERS] using hreg
    simp [process_request, hv, hme, hm, hp, hreg, hmem]

/-- C1 witness: one concrete input per validation case. -/
theorem C1_validation_order_witness :
    process_request (Except.error "bad") =
      .replied (send_response none none
        (some (make_error (-32700) ("Parse error: " ++ "bad") none)))
    ∧ process_request (Except.ok (JVal.str "hi")) =
      .replied (send_response none none
        (some (make_error (-32600) "Request must be a JSON object" none)))
    ∧ process_request (Except.ok (JVal.obj [("id", JVal.str "1")])) =
      .replied (send_response (recovered_id [("id", JVal.str "1")]) none
        (some (make_error (-32600) "Invalid jsonrpc version, expected \x272.0\x27" none)))
    ∧ process_request (Except.ok (JVal.obj
          [("jsonrpc", JVal.str "2.0"), ("id", JVal.str "1")])) =
      .replied (send_response
        (recovered_id [("jsonrpc", JVal.str "2.0"), ("id", JVal.str "1")]) none
        (some (make_error (-32600) "Missing or invalid \x27method\x27" none)))
    ∧ process_request (Except.ok (JVal.obj
          [("jsonrpc", JVal.str "2.0"), ("method", JVal.str "ping"),
           ("params", JVal.str "x")])) =
      .replied (send_response
        (recovered_id [("jsonrpc", JVal.str "2.0"), ("method", JVal.str "ping"),
               ("params", JVal.str "x")]) none
        (some (make_error (-32602) "Parameter \x27params\x27 must be an object" none)))
    ∧ process_request (Except.ok (JVal.obj
          [("jsonrpc", JVal.str "2.0"), ("method", JVal.str "nope")])) =
      .replied (send_response
        (recovered_id [("jsonrpc", JVal.str "2.0"), ("method", JVal.str "nope")]) none
        (some (make_error (-32601) ("Method not found: " ++ "nope") none))) := by
  refine ⟨C1_validation_order.1 "bad",
    C1_validation_order.2.1 (JVal.str "hi") rfl,
    C1_validation_order.2.2.1 [("id", JVal.str "1")] rfl,
    C1_validation_order.2.2.2.1 [("jsonrpc", JVal.str "2.0"), ("id", JVal.str "1")]
      rfl (by intro s h; simp [jget] at h),
    C1_validation_order.2.2.2.2.1 _ "ping" (JVal.str "x") rfl rfl
      (by decide) rfl rfl,
    C1_validation_order.2.2.2.2.2 _ "nope" [] rfl rfl (by decide) rfl rfl⟩

/-- C2: an `execute` request whose `params.code` is absent, falsy (in
particular the empty string), or a truthy non-string is answered with
Invalid-Params (-32602) and the handler returns before any execution
attempt: the returned state is the incoming one unchanged, and the
response does not depend on the interpreter oracle. -/
theorem C2_execute_requires_code :
    ∀ (run : PyRun) (env : ProbeEnv) (s : String) (d : ℚ) (id : JVal)
      (params : List (String × JVal)) (st : ExecutionState),
    (jget params "code" = none →
      handle_execute run env s d id params st =
        (send_response (some id) none
          (some (make_error (-32602) "Missing required parameter: code" none)), st))
    ∧ (∀ v, jget params "code" = some v → pyTruthy v = false →
      handle_execute run env s d id params st =
        (send_response (some id) none
          (some (make_error (-32602) "Missing required parameter: code" none)), st))
    ∧ (jget params "code" = some (JVal.str "") →
      handle_execute run env s d id params st =
        (send_response (some id) none
          (some (make_error (-32602) "Missing required parameter: code" none)), st))
    ∧ (∀ v, jget params "code" = some v → v.isStr = false → pyTruthy v = true →
      handle_execute run env s d id params st =
        (send_response (some id) none
          (some (make_error (-32602) "Parameter \x27code\x27 must be a string" none)), st)) := by
  intro run env s d id params st
  refine ⟨?_, ?_, ?_, ?_⟩
  · intro h
    simp [handle_execute, h, pyTruthyOpt]
  · intro v h hf
    simp [handle_execute, h, pyTruthyOpt, hf]
  · intro h
    simp [handle_execute, h, pyTruthyOpt, pyTruthy]
  · intro v h hs ht
    cases v <;> simp_all [handle_execute, pyTruthyOpt, JVal.isStr]

/-- C2 witness: the empty-params and empty-string cases at a concrete
state. -/
theorem C2_execute_requires_code_witness :
    handle_execute okRun ProbeEnv.procFail "t0" 1 (JVal.str "1") [] ⟨[], false⟩ =
      (send_response (some (JVal.str "1")) none
        (some (make_error (-32602) "Missing required parameter: code" none)), ⟨[], false⟩)
    ∧ handle_execute okRun ProbeEnv.procFail "t0" 1 (JVal.str "1")
        [("code", JVal.num 7)] ⟨[], false⟩ =
      (send_response (some (JVal.str "1")) none
        (some (make_error (-32602) "Parameter \x27code\x27 must be a string" none)), ⟨[], false⟩) :=
  ⟨(C2_execute_requires_code okRun ProbeEnv.procFail "t0" 1 (JVal.str "1")
      [] ⟨[], false⟩).1 rfl,
   (C2_execute_requires_code okRun ProbeEnv.procFail "t0" 1 (JVal.str "1")
      [("code", JVal.num 7)] ⟨[], false⟩).2.2.2 (JVal.num 7) rfl rfl (by decide)⟩

/-- C10: an `execute` request with a valid code parameter clears the
interrupt flag before the code starts running: the call's outcome is
independent of the incoming flag state and determined by the oracle's
behavior at a clear flag, and the flag is clear in the state the
handler returns. -/
theorem C10_interrupt_cleared_before_execution :
    ∀ (run1 run2 : PyRun) (env : ProbeEnv) (s : String) (d : ℚ) (id : JVal)
      (params : List (String × JVal)) (st : ExecutionState) (b : Bool) (m : String),
    jget params "code" = some (JVal.str m) → m ≠ "" →
    (∀ c n t, run1 c n t false = run2 c n t false) →
    (handle_execute run1 env s d id params { st with _interrupt_flag := b } =
      handle_execute run2 env s d id params { st with _interrupt_flag := false })
    ∧ (handle_execute run1 env s d id params st).2._interrupt_flag = false := by
  intro run1 run2 env s d id params st b m hm hne hagree
  have hrw : ∀ (nsx : NS) (tx : Option ℚ),
      execute_code run1 m nsx tx false = execute_code run2 m nsx tx false := by
    intro nsx tx
    unfold execute_code
    rw [hagree]
  constructor
  · simp [handle_execute, hm, pyTruthyOpt, pyTruthy, hne, hrw]
  · simp [handle_execute, hm, pyTruthyOpt, pyTruthy, hne]

/-- C10 witness: with a concrete request and a concrete oracle, the
incoming interrupt flag does not change the call and the returned flag
is clear. -/
theorem C10_interrupt_cleared_before_execution_witness :
    (handle_execute okRun ProbeEnv.procFail "t0" 1 (JVal.str "1")
        [("code", JVal.str "x = 1")] { _namespace := [], _interrupt_flag := true } =
      handle_execute okRun ProbeEnv.procFail "t0" 1 (JVal.str "1")
        [("code", JVal.str "x = 1")] { _namespace := [], _interrupt_flag := false })
    ∧ (handle_execute okRun ProbeEnv.procFail "t0" 1 (JVal.str "1")
        [("code", JVal.str "x = 1")] { _namespace := [], _interrupt_flag := true }).2._interrupt_flag
        = false :=
  C10_interrupt_cleared_before_execution okRun okRun ProbeEnv.procFail "t0" 1
    (JVal.str "1") [("code", JVal.str "x = 1")]
    { _namespace := [], _interrupt_flag := true } true "x = 1"
    rfl (by decide) (fun _ _ _ => rfl)

end GyoshuBridge
